import Mathlib

/-!
# Verification of the mygpoclient advanced API client (`mygpoclient/api.py`)

This file gives a shallow embedding of the value objects (`EpisodeAction`,
`PodcastDevice`, `SubscriptionChanges`, `EpisodeActionChanges`) and the RPC
response-handling methods of `MygPodderClient` from `mygpoclient/api.py`, and
proves properties of the embedded code.

Modelling choices:

* Decoded JSON values (and, more generally, the Python values flowing through
  the client) are modelled by the inductive type `PyVal`: Python `None`,
  strings, integers, lists and string-keyed dictionaries.  Dictionaries are
  association lists with the first binding of a key the visible one (Python
  dictionaries have unique keys, so the embedding never produces duplicates).
* Python exceptions are modelled by the error type `PyErr` together with
  `Except PyErr`: `ValueError`, `KeyError`, `TypeError` and the client's own
  `InvalidResponse` are told apart, because the client catches some of them
  (`except ValueError`, `except KeyError`) and lets others escape.
* The HTTP transport and the URI locator are external collaborators of this
  layer; the embedded methods take the decoded response (or, for PUT, the
  transport as a function from the request body to the decoded response) as an
  explicit argument.
* `util.iso8601_to_datetime` and `util.position_to_seconds` live in the
  `mygpoclient.util` module, which is an external collaborator of `api.py`;
  the embedding is parameterised by two abstract validators
  `iso8601Ok posOk : PyVal → Bool` (`true` = the utility accepts the value).
-/

/-- A Python value as seen by the client: `None`, `str`, `int`, `list`, `dict`
with string keys.  This covers every value `api.py` constructs or inspects. -/
inductive PyVal where
  | none : PyVal
  | str : String → PyVal
  | int : Int → PyVal
  | list : List PyVal → PyVal
  | dict : List (String × PyVal) → PyVal
deriving Repr

/-- Python exceptions relevant to `api.py`: `ValueError`, `KeyError`,
`TypeError` and the module's own `InvalidResponse`. -/
inductive PyErr where
  | valueError : String → PyErr
  | keyError : String → PyErr
  | typeError : String → PyErr
  | invalidResponse : String → PyErr
deriving Repr, DecidableEq

/-- `v is None` in Python. -/
def PyVal.isNone : PyVal → Bool
  | .none => true
  | _ => false

/-- `isinstance(v, str)` in Python. -/
def PyVal.isStr : PyVal → Bool
  | .str _ => true
  | _ => false

/-- Python `v == s` for a string literal `s`: true only for an equal string. -/
def PyVal.eqStr : PyVal → String → Bool
  | .str t, s => t == s
  | _, _ => false

/-- Association lists standing in for Python dictionaries. -/
abbrev PyDict := List (String × PyVal)

/-- First binding of key `k` in the dictionary, if any. -/
def PyDict.find : PyDict → String → Option PyVal
  | [], _ => Option.none
  | (k', v) :: rest, k => if k' == k then some v else PyDict.find rest k

/-- `k in d` for a Python dictionary `d`. -/
def PyDict.hasKey (d : PyDict) (k : String) : Bool :=
  (PyDict.find d k).isSome

/-- The keys of a dictionary, in insertion order. -/
def PyDict.keys (d : PyDict) : List String :=
  d.map Prod.fst

/-- Python `d[k]` on an arbitrary value: dictionary lookup raising `KeyError`
when the key is absent; indexing a list, string, integer or `None` with a
string key raises `TypeError`. -/
def pySubscript (v : PyVal) (k : String) : Except PyErr PyVal :=
  match v with
  | .dict d =>
    match PyDict.find d k with
    | some x => .ok x
    | Option.none => .error (.keyError k)
  | _ => .error (.typeError "value is not subscriptable by a string key")

/-- Python `d.get(k)` (only ever reached on dictionaries in `api.py`):
the stored value, or `None` when the key is absent. -/
def pyGet (v : PyVal) (k : String) : PyVal :=
  match v with
  | .dict d => (PyDict.find d k).getD .none
  | _ => .none

/-- Python `k in v` for a string `k`: key lookup in a dictionary, element
membership in a list, substring test on a string; `TypeError` otherwise. -/
def pyContains (v : PyVal) (k : String) : Except PyErr Bool :=
  match v with
  | .dict d => .ok (PyDict.hasKey d k)
  | .list xs => .ok (xs.any (fun x => PyVal.eqStr x k))
  | .str s => .ok ((List.range (s.length + 1)).any (fun i => k.isPrefixOf (s.drop i)))
  | _ => .error (.typeError "argument is not iterable")

/-- Python iteration `for x in v`: the elements of a list, the single-character
strings of a string, the keys of a dictionary; `TypeError` otherwise. -/
def pyIterate (v : PyVal) : Except PyErr (List PyVal) :=
  match v with
  | .list xs => .ok xs
  | .str s => .ok (s.toList.map (fun c => .str c.toString))
  | .dict d => .ok (d.map (fun kv => .str kv.1))
  | _ => .error (.typeError "object is not iterable")

/-- Python `int(s)` on a list of characters: optional surrounding whitespace,
an optional sign, then a non-empty run of digits. -/
def parsePyIntChars (cs : List Char) : Option Int :=
  let t := ((cs.dropWhile Char.isWhitespace).reverse.dropWhile Char.isWhitespace).reverse
  let signDigits : Int × List Char :=
    match t with
    | '-' :: rest => (-1, rest)
    | '+' :: rest => (1, rest)
    | _ => (1, t)
  if signDigits.2 ≠ [] ∧ signDigits.2.all Char.isDigit then
    some (signDigits.1 * Int.ofNat
      (signDigits.2.foldl (fun n c => 10 * n + (c.toNat - '0'.toNat)) 0))
  else
    Option.none

/-- Python `int(s)` on a string. -/
def parsePyIntString (s : String) : Option Int :=
  parsePyIntChars s.toList

/-- Python `int(v)`: the identity on integers, string parsing raising
`ValueError` on failure, `TypeError` on `None`, lists and dictionaries. -/
def pyInt (v : PyVal) : Except PyErr Int :=
  match v with
  | .int n => .ok n
  | .str s =>
    match parsePyIntString s with
    | some n => .ok n
    | Option.none => .error (.valueError ("invalid literal for int() with base 10: " ++ s))
  | _ => .error (.typeError "int() argument must be a string or a number")

/-! ## Value objects (`api.py`, classes `SubscriptionChanges`,
`EpisodeActionChanges`, `PodcastDevice`, `EpisodeAction`) -/

/-- `SubscriptionChanges.__init__`: container for subscription changes. -/
structure SubscriptionChanges where
  add : PyVal
  remove : PyVal
  since : Int
deriving Repr

/-- The tuple `PodcastDevice.VALID_TYPES`. -/
def PodcastDevice.VALID_TYPES : List String :=
  ["desktop", "laptop", "mobile", "server", "other"]

/-- Python `type in PodcastDevice.VALID_TYPES` (membership by `==`, so a
non-string value is never a member). -/
def PodcastDevice.isValidType (v : PyVal) : Bool :=
  PodcastDevice.VALID_TYPES.any (fun s => PyVal.eqStr v s)

/-- A constructed `PodcastDevice`: `subscriptions` is stored as the coerced
integer, the other fields verbatim. -/
structure PodcastDevice where
  device_id : PyVal
  caption : PyVal
  type : PyVal
  subscriptions : Int
deriving Repr

/-- `PodcastDevice.__init__`: rejects an invalid `type`, rejects a
`subscriptions` value whose `int(...)` coercion raises (the bare `except`
catches both `ValueError` and `TypeError`), then stores the fields with
`subscriptions` coerced by `int(...)`. -/
def PodcastDevice.init (device_id caption type subscriptions : PyVal) :
    Except PyErr PodcastDevice :=
  if ¬ PodcastDevice.isValidType type then
    .error (.valueError "Invalid device type (see VALID_TYPES)")
  else
    match pyInt subscriptions with
    | .error _ => .error (.valueError "Subscription must be a numeric value")
    | .ok n => .ok ⟨device_id, caption, type, n⟩

/-- `PodcastDevice.from_dictionary`: reads `d['id']`, `d['caption']`,
`d['type']`, `d['subscriptions']` (in this order, so the first absent key
raises its `KeyError`) and delegates to the constructor. -/
def PodcastDevice.from_dictionary (d : PyVal) : Except PyErr PodcastDevice := do
  let i ← pySubscript d "id"
  let c ← pySubscript d "caption"
  let t ← pySubscript d "type"
  let s ← pySubscript d "subscriptions"
  PodcastDevice.init i c t s

/-- The tuple `EpisodeAction.VALID_ACTIONS`. -/
def EpisodeAction.VALID_ACTIONS : List String :=
  ["download", "play", "delete", "new"]

/-- Python `action in EpisodeAction.VALID_ACTIONS` (membership by `==`, so a
non-string value is never a member). -/
def EpisodeAction.isValidAction (v : PyVal) : Bool :=
  EpisodeAction.VALID_ACTIONS.any (fun s => PyVal.eqStr v s)

/-- A constructed `EpisodeAction`; an optional field holds `PyVal.none` when
it was not supplied. -/
structure EpisodeAction where
  podcast : PyVal
  episode : PyVal
  action : PyVal
  device : PyVal
  timestamp : PyVal
  position : PyVal
deriving Repr

/-- `EpisodeAction.__init__`, parameterised by the two abstract validators for
the external `mygpoclient.util` collaborator: rejects an invalid `action`,
rejects a non-`None` `position` on a non-`'play'` action, rejects a
non-`None` `timestamp` that `util.iso8601_to_datetime` maps to `None`,
rejects a non-`None` `position` that `util.position_to_seconds` rejects,
and otherwise stores all six fields verbatim. -/
def EpisodeAction.init (iso8601Ok posOk : PyVal → Bool)
    (podcast episode action device timestamp position : PyVal) :
    Except PyErr EpisodeAction :=
  if ¬ EpisodeAction.isValidAction action then
    .error (.valueError "Invalid action type (see VALID_TYPES)")
  else if ¬ PyVal.eqStr action "play" ∧ ¬ position.isNone then
    .error (.valueError "Position can only be set for the \"play\" action")
  else if ¬ timestamp.isNone ∧ ¬ iso8601Ok timestamp then
    .error (.valueError "Timestamp has to be in ISO 8601 format")
  else if ¬ position.isNone ∧ ¬ posOk position then
    .error (.valueError "Position has to be in HH:MM:SS format")
  else
    .ok ⟨podcast, episode, action, device, timestamp, position⟩

/-- `EpisodeAction.from_dictionary`: mandatory keys via `d[...]` (the first
absent one raises its `KeyError`), optional keys via `d.get(...)` (absent
becomes `None`), then the constructor. -/
def EpisodeAction.from_dictionary (iso8601Ok posOk : PyVal → Bool) (d : PyVal) :
    Except PyErr EpisodeAction := do
  let p ← pySubscript d "podcast"
  let e ← pySubscript d "episode"
  let a ← pySubscript d "action"
  EpisodeAction.init iso8601Ok posOk p e a
    (pyGet d "device") (pyGet d "timestamp") (pyGet d "position")

/-- `EpisodeAction.to_dictionary`: the three mandatory keys always, each
optional key only when its field is not `None`, in the source's loop order. -/
def EpisodeAction.to_dictionary (e : EpisodeAction) : PyDict :=
  [("podcast", e.podcast), ("episode", e.episode), ("action", e.action)]
    ++ (if e.device.isNone then [] else [("device", e.device)])
    ++ (if e.timestamp.isNone then [] else [("timestamp", e.timestamp)])
    ++ (if e.position.isNone then [] else [("position", e.position)])

/-- `EpisodeActionChanges.__init__`: container for downloaded actions. -/
structure EpisodeActionChanges where
  actions : List EpisodeAction
  since : Int
deriving Repr

/-! ## `MygPodderClient` response handling

Each embedded method takes the decoded JSON the transport returned (the URI
construction by the locator and the HTTP exchange themselves are external
collaborators and play no part in the response handling). -/

/-- `MygPodderClient.pull_subscriptions`, applied to the decoded JSON `data`
returned by the transport's GET. -/
def pull_subscriptions (data : PyVal) : Except PyErr SubscriptionChanges := do
  if data.isNone then
    throw (.invalidResponse "Got empty response")
  let hasAdd ← pyContains data "add"
  if ¬ hasAdd then
    throw (.invalidResponse "List of added podcasts not in response")
  let hasRemove ← pyContains data "remove"
  if ¬ hasRemove then
    throw (.invalidResponse "List of removed podcasts not in response")
  let hasTimestamp ← pyContains data "timestamp"
  if ¬ hasTimestamp then
    throw (.invalidResponse "Timestamp missing from response")
  let addVal ← pySubscript data "add"
  let addElems ← pyIterate addVal
  if ¬ addElems.all PyVal.isStr then
    throw (.invalidResponse "Invalid value in list of added podcasts")
  let removeVal ← pySubscript data "remove"
  let removeElems ← pyIterate removeVal
  if ¬ removeElems.all PyVal.isStr then
    throw (.invalidResponse "Invalid value in list of removed podcasts")
  let tsVal ← pySubscript data "timestamp"
  let since ←
    match pyInt tsVal with
    | .ok n => pure n
    | .error (.valueError _) =>
      throw (.invalidResponse "Timestamp has invalid format in response")
    | .error e => throw e
  return ⟨addVal, removeVal, since⟩

/-- `[EpisodeAction.from_dictionary(d) for d in dicts]`: the first raised
exception aborts the comprehension. -/
def actionsFromDicts (iso8601Ok posOk : PyVal → Bool) (dicts : List PyVal) :
    Except PyErr (List EpisodeAction) :=
  dicts.mapM (EpisodeAction.from_dictionary iso8601Ok posOk)

/-- `MygPodderClient.download_episode_actions`, applied to the decoded JSON
`data` returned by the transport's GET.  Only a `ValueError` from the
timestamp coercion and a `KeyError` from the list comprehension are turned
into `InvalidResponse`; every other exception propagates unchanged. -/
def download_episode_actions (iso8601Ok posOk : PyVal → Bool) (data : PyVal) :
    Except PyErr EpisodeActionChanges := do
  if data.isNone then
    throw (.invalidResponse "Got empty response")
  let hasActions ← pyContains data "actions"
  if ¬ hasActions then
    throw (.invalidResponse "Response does not contain actions")
  let hasTimestamp ← pyContains data "timestamp"
  if ¬ hasTimestamp then
    throw (.invalidResponse "Response does not contain timestamp")
  let tsVal ← pySubscript data "timestamp"
  let since ←
    match pyInt tsVal, tsVal with
    | .ok n, _ => pure n
    | .error (.valueError _), .str s =>
      throw (.invalidResponse ("Invalid value for timestamp: " ++ s))
    | .error (.valueError _), _ =>
      throw (.typeError "can only concatenate str to str")
    | .error e, _ => throw e
  let dictsVal ← pySubscript data "actions"
  let dicts ← pyIterate dictsVal
  let actions ←
    match actionsFromDicts iso8601Ok posOk dicts with
    | .error (.keyError _) =>
      throw (.invalidResponse "Missing keys in action list response")
    | .error e => throw e
    | .ok xs => pure xs
  return ⟨actions, since⟩

/-- The request body built by `MygPodderClient.update_device_settings`:
`caption`/`type` are added to the initially empty dictionary only when they
are not `None`. -/
def update_device_settings_body (caption type : PyVal) : PyDict :=
  (if caption.isNone then [] else [("caption", caption)])
    ++ (if type.isNone then [] else [("type", type)])

/-- `MygPodderClient.update_device_settings`: the transport's PUT is modelled
as a function `put` from the request body to the decoded response; the method
always performs the PUT and returns `self._client.PUT(uri, data) is None`. -/
def update_device_settings (put : PyDict → PyVal) (caption type : PyVal) :
    Except PyErr Bool :=
  .ok (put (update_device_settings_body caption type)).isNone

/-- The raised exception is an `InvalidResponse` (and in particular the call
produced no result value). -/
def raisesInvalidResponse {α : Type} (r : Except PyErr α) : Bool :=
  match r with
  | .error (.invalidResponse _) => true
  | _ => false

/-! ## Helper lemmas -/

theorem PyVal.isNone_eq_true_iff (v : PyVal) : v.isNone = true ↔ v = .none := by
  cases v <;> simp [PyVal.isNone]

theorem PyVal.isNone_eq_false_iff (v : PyVal) : v.isNone = false ↔ v ≠ .none := by
  cases v <;> simp [PyVal.isNone]

theorem find_to_dictionary_podcast (e : EpisodeAction) :
    PyDict.find e.to_dictionary "podcast" = some e.podcast := rfl

theorem find_to_dictionary_episode (e : EpisodeAction) :
    PyDict.find e.to_dictionary "episode" = some e.episode := rfl

theorem find_to_dictionary_action (e : EpisodeAction) :
    PyDict.find e.to_dictionary "action" = some e.action := rfl

theorem pyGet_to_dictionary_device (e : EpisodeAction) :
    pyGet (.dict e.to_dictionary) "device" = e.device := by
  cases hd : e.device.isNone <;> cases ht : e.timestamp.isNone <;>
    cases hp : e.position.isNone <;>
    simp_all [pyGet, EpisodeAction.to_dictionary, PyDict.find, PyVal.isNone_eq_true_iff]

theorem pyGet_to_dictionary_timestamp (e : EpisodeAction) :
    pyGet (.dict e.to_dictionary) "timestamp" = e.timestamp := by
  cases hd : e.device.isNone <;> cases ht : e.timestamp.isNone <;>
    cases hp : e.position.isNone <;>
    simp_all [pyGet, EpisodeAction.to_dictionary, PyDict.find, PyVal.isNone_eq_true_iff]

theorem pyGet_to_dictionary_position (e : EpisodeAction) :
    pyGet (.dict e.to_dictionary) "position" = e.position := by
  cases hd : e.device.isNone <;> cases ht : e.timestamp.isNone <;>
    cases hp : e.position.isNone <;>
    simp_all [pyGet, EpisodeAction.to_dictionary, PyDict.find, PyVal.isNone_eq_true_iff]

/-! ## Claims about `EpisodeAction` -/

/-- C1: for every validly constructed `EpisodeAction` `e` (one the constructor
accepts with exactly `e`'s fields as arguments, under arbitrary behaviour of
the external `util` validators), `EpisodeAction.from_dictionary` applied to
`e.to_dictionary` succeeds and returns an object with exactly `e`'s mandatory
and optional fields, the optional ones `None` exactly where `e`'s are. -/
theorem episodeAction_roundtrip (iso8601Ok posOk : PyVal → Bool) (e : EpisodeAction)
    (h : EpisodeAction.init iso8601Ok posOk e.podcast e.episode e.action
          e.device e.timestamp e.position = .ok e) :
    EpisodeAction.from_dictionary iso8601Ok posOk (.dict e.to_dictionary) = .ok e := by
  simp [EpisodeAction.from_dictionary, pySubscript, Bind.bind, Except.bind,
    find_to_dictionary_podcast, find_to_dictionary_episode, find_to_dictionary_action,
    pyGet_to_dictionary_device, pyGet_to_dictionary_timestamp,
    pyGet_to_dictionary_position, h]

/-- C1 witness. -/
theorem episodeAction_roundtrip_witness :
    EpisodeAction.from_dictionary (fun _ => true) (fun _ => true)
      (.dict (EpisodeAction.to_dictionary
        ⟨.str "p", .str "e", .str "play", .none, .none, .str "00:00:10"⟩))
      = .ok ⟨.str "p", .str "e", .str "play", .none, .none, .str "00:00:10"⟩ :=
  episodeAction_roundtrip (fun _ => true) (fun _ => true)
    ⟨.str "p", .str "e", .str "play", .none, .none, .str "00:00:10"⟩ rfl

/-- C5: `to_dictionary` always contains the keys `podcast`, `episode` and
`action`, contains each of `device`, `timestamp`, `position` exactly when the
corresponding field is not `None`, and contains no other key (proved for every
`EpisodeAction`, hence in particular for every validly constructed one). -/
theorem to_dictionary_keys (e : EpisodeAction) (k : String) :
    k ∈ PyDict.keys e.to_dictionary ↔
      (k = "podcast" ∨ k = "episode" ∨ k = "action"
        ∨ (k = "device" ∧ e.device ≠ .none)
        ∨ (k = "timestamp" ∧ e.timestamp ≠ .none)
        ∨ (k = "position" ∧ e.position ≠ .none)) := by
  cases hd : e.device.isNone <;> cases ht : e.timestamp.isNone <;>
    cases hp : e.position.isNone <;>
    simp_all [PyDict.keys, EpisodeAction.to_dictionary, PyVal.isNone_eq_true_iff,
      PyVal.isNone_eq_false_iff]

/-- C6: construction fails for every action value outside
{download, play, delete, new}; it fails for every action value other than
`'play'` when a non-`None` position is supplied; and when the action is valid
and (the action is `'play'` or the position is `None`), neither of these two
conditions makes it fail — any remaining failure is one of the two format
checks delegated to the external `util` collaborator. -/
theorem episodeAction_init_checks (iso8601Ok posOk : PyVal → Bool)
    (podcast episode action device timestamp position : PyVal) :
    (EpisodeAction.isValidAction action = false →
      EpisodeAction.init iso8601Ok posOk podcast episode action device timestamp position
        = .error (.valueError "Invalid action type (see VALID_TYPES)"))
    ∧ (PyVal.eqStr action "play" = false → position ≠ .none →
      ∃ msg, EpisodeAction.init iso8601Ok posOk podcast episode action device timestamp position
        = .error (.valueError msg))
    ∧ (EpisodeAction.isValidAction action = true →
      (action = .str "play" ∨ position = .none) →
      (EpisodeAction.init iso8601Ok posOk podcast episode action device timestamp position
          = .ok ⟨podcast, episode, action, device, timestamp, position⟩
        ∨ EpisodeAction.init iso8601Ok posOk podcast episode action device timestamp position
          = .error (.valueError "Timestamp has to be in ISO 8601 format")
        ∨ EpisodeAction.init iso8601Ok posOk podcast episode action device timestamp position
          = .error (.valueError "Position has to be in HH:MM:SS format"))) := by
  refine ⟨?_, ?_, ?_⟩
  · intro h
    simp [EpisodeAction.init, h]
  · intro h1 h2
    by_cases hv : EpisodeAction.isValidAction action = true
    · refine ⟨"Position can only be set for the \"play\" action", ?_⟩
      have hp : position.isNone = false := (PyVal.isNone_eq_false_iff position).mpr h2
      simp [EpisodeAction.init, hv, h1, hp]
    · refine ⟨"Invalid action type (see VALID_TYPES)", ?_⟩
      simp [EpisodeAction.init, hv]
  · intro hv hdisj
    have h2 : PyVal.eqStr action "play" = true ∨ position.isNone = true := by
      rcases hdisj with h | h
      · left; simp [h, PyVal.eqStr]
      · right; simp [h, PyVal.isNone]
    by_cases h3 : timestamp.isNone = false ∧ iso8601Ok timestamp = false
    · right; left
      rcases h2 with h | h <;> simp [EpisodeAction.init, hv, h, h3]
    · by_cases h4 : position.isNone = false ∧ posOk position = false
      · right; right
        rcases h2 with h | h
        · simp [EpisodeAction.init, hv, h, h3, h4]
        · exact absurd h (by simp [h4.1])
      · left
        rcases h2 with h | h <;> simp [EpisodeAction.init, hv, h, h3, h4]

/-- C6 witness. -/
theorem episodeAction_init_checks_witness :
    EpisodeAction.init (fun _ => true) (fun _ => true)
        (.str "p") (.str "e") (.str "stream") .none .none .none
      = .error (.valueError "Invalid action type (see VALID_TYPES)")
    ∧ (∃ msg, EpisodeAction.init (fun _ => true) (fun _ => true)
        (.str "p") (.str "e") (.str "download") .none .none (.str "00:00:01")
      = .error (.valueError msg))
    ∧ (EpisodeAction.init (fun _ => true) (fun _ => true)
          (.str "p") (.str "e") (.str "play") .none .none (.str "00:00:01")
        = .ok ⟨.str "p", .str "e", .str "play", .none, .none, .str "00:00:01"⟩
      ∨ EpisodeAction.init (fun _ => true) (fun _ => true)
          (.str "p") (.str "e") (.str "play") .none .none (.str "00:00:01")
        = .error (.valueError "Timestamp has to be in ISO 8601 format")
      ∨ EpisodeAction.init (fun _ => true) (fun _ => true)
          (.str "p") (.str "e") (.str "play") .none .none (.str "00:00:01")
        = .error (.valueError "Position has to be in HH:MM:SS format")) :=
  ⟨(episodeAction_init_checks (fun _ => true) (fun _ => true)
      (.str "p") (.str "e") (.str "stream") .none .none .none).1 rfl,
   (episodeAction_init_checks (fun _ => true) (fun _ => true)
      (.str "p") (.str "e") (.str "download") .none .none (.str "00:00:01")).2.1 rfl
      (by simp),
   (episodeAction_init_checks (fun _ => true) (fun _ => true)
      (.str "p") (.str "e") (.str "play") .none .none (.str "00:00:01")).2.2 rfl
      (Or.inl rfl)⟩

/-- C9: `from_dictionary` depends only on the keys `podcast`, `episode`,
`action`, `device`, `timestamp` and `position` of its input dictionary: two
dictionaries agreeing on them (an absent optional key read as `None` by
`d.get`) give identical outcomes, so extra keys are ignored. -/
theorem from_dictionary_depends_only_on_six_keys (iso8601Ok posOk : PyVal → Bool)
    (d1 d2 : PyDict)
    (hpod : PyDict.find d1 "podcast" = PyDict.find d2 "podcast")
    (hep : PyDict.find d1 "episode" = PyDict.find d2 "episode")
    (hact : PyDict.find d1 "action" = PyDict.find d2 "action")
    (hdev : pyGet (.dict d1) "device" = pyGet (.dict d2) "device")
    (hts : pyGet (.dict d1) "timestamp" = pyGet (.dict d2) "timestamp")
    (hpos : pyGet (.dict d1) "position" = pyGet (.dict d2) "position") :
    EpisodeAction.from_dictionary iso8601Ok posOk (.dict d1)
      = EpisodeAction.from_dictionary iso8601Ok posOk (.dict d2) := by
  simp only [EpisodeAction.from_dictionary, pySubscript, hpod, hep, hact, hdev, hts, hpos]

/-- C9 witness: an extra key `origin` is ignored. -/
theorem from_dictionary_depends_only_on_six_keys_witness :
    EpisodeAction.from_dictionary (fun _ => true) (fun _ => true)
        (.dict [("podcast", .str "p"), ("episode", .str "e"), ("action", .str "new"),
                ("origin", .int 7)])
      = EpisodeAction.from_dictionary (fun _ => true) (fun _ => true)
        (.dict [("podcast", .str "p"), ("episode", .str "e"), ("action", .str "new")]) :=
  from_dictionary_depends_only_on_six_keys (fun _ => true) (fun _ => true)
    [("podcast", .str "p"), ("episode", .str "e"), ("action", .str "new"), ("origin", .int 7)]
    [("podcast", .str "p"), ("episode", .str "e"), ("action", .str "new")]
    rfl rfl rfl rfl rfl rfl

/-! ## Claims about `PodcastDevice` -/

/-- C7: `PodcastDevice.from_dictionary` raises a `KeyError` when any of `id`,
`caption`, `type`, `subscriptions` is absent; with all four present it raises
the local-validation `ValueError` when `type` is not a valid device type; and
otherwise it stores the dictionary's `id` value in the `device_id` field and
the integer coercion of the `subscriptions` value. -/
theorem podcastDevice_from_dictionary_spec (d : PyDict) :
    ((PyDict.hasKey d "id" = false ∨ PyDict.hasKey d "caption" = false
        ∨ PyDict.hasKey d "type" = false ∨ PyDict.hasKey d "subscriptions" = false) →
      ∃ k, PodcastDevice.from_dictionary (.dict d) = .error (.keyError k))
    ∧ (∀ i c t s, PyDict.find d "id" = some i → PyDict.find d "caption" = some c →
        PyDict.find d "type" = some t → PyDict.find d "subscriptions" = some s →
        PodcastDevice.isValidType t = false →
        PodcastDevice.from_dictionary (.dict d)
          = .error (.valueError "Invalid device type (see VALID_TYPES)"))
    ∧ (∀ i c t s n, PyDict.find d "id" = some i → PyDict.find d "caption" = some c →
        PyDict.find d "type" = some t → PyDict.find d "subscriptions" = some s →
        PodcastDevice.isValidType t = true → pyInt s = .ok n →
        PodcastDevice.from_dictionary (.dict d) = .ok ⟨i, c, t, n⟩) := by
  refine ⟨?_, ?_, ?_⟩
  · intro h
    rcases hid : PyDict.find d "id" with _ | i
    · exact ⟨"id", by simp [PodcastDevice.from_dictionary, pySubscript, hid,
        Bind.bind, Except.bind]⟩
    rcases hcap : PyDict.find d "caption" with _ | c
    · exact ⟨"caption", by simp [PodcastDevice.from_dictionary, pySubscript, hid, hcap,
        Bind.bind, Except.bind]⟩
    rcases hty : PyDict.find d "type" with _ | t
    · exact ⟨"type", by simp [PodcastDevice.from_dictionary, pySubscript, hid, hcap, hty,
        Bind.bind, Except.bind]⟩
    rcases hsub : PyDict.find d "subscriptions" with _ | s
    · exact ⟨"subscriptions", by simp [PodcastDevice.from_dictionary, pySubscript,
        hid, hcap, hty, hsub, Bind.bind, Except.bind]⟩
    exfalso
    rcases h with h | h | h | h <;> simp [PyDict.hasKey, hid, hcap, hty, hsub] at h
  · intro i c t s hid hcap hty hsub hvalid
    simp [PodcastDevice.from_dictionary, pySubscript, hid, hcap, hty, hsub,
      PodcastDevice.init, hvalid, Bind.bind, Except.bind]
  · intro i c t s n hid hcap hty hsub hvalid hn
    simp [PodcastDevice.from_dictionary, pySubscript, hid, hcap, hty, hsub,
      PodcastDevice.init, hvalid, hn, Bind.bind, Except.bind]

/-- C7 witness: the spec's concrete example. -/
theorem podcastDevice_from_dictionary_spec_witness :
    PodcastDevice.from_dictionary
        (.dict [("id", .str "d1"), ("caption", .str "C"), ("type", .str "mobile"),
                ("subscriptions", .str "3")])
      = .ok ⟨.str "d1", .str "C", .str "mobile", 3⟩ :=
  (podcastDevice_from_dictionary_spec
      [("id", .str "d1"), ("caption", .str "C"), ("type", .str "mobile"),
       ("subscriptions", .str "3")]).2.2
    (.str "d1") (.str "C") (.str "mobile") (.str "3") 3 rfl rfl rfl rfl rfl rfl

/-! ## Claims about `update_device_settings` -/

/-- C8: `update_device_settings` returns `True` exactly when the transport's
PUT returned `None`, returns `False` for every non-`None` return value, and
never raises on a non-`None` return. -/
theorem update_device_settings_result (put : PyDict → PyVal) (caption type : PyVal) :
    (update_device_settings put caption type = .ok true
        ↔ put (update_device_settings_body caption type) = .none)
    ∧ (put (update_device_settings_body caption type) ≠ .none →
        update_device_settings put caption type = .ok false) := by
  rcases hput : put (update_device_settings_body caption type) with _ | s | n | xs | dd <;>
    simp [update_device_settings, hput, PyVal.isNone]

/-- C8 witness. -/
theorem update_device_settings_result_witness :
    (update_device_settings (fun _ => .none) (.str "c") .none = .ok true
        ↔ (fun _ => (.none : PyVal)) (update_device_settings_body (.str "c") .none) = .none)
    ∧ update_device_settings (fun _ => .int 0) (.str "c") .none = .ok false :=
  ⟨(update_device_settings_result (fun _ => .none) (.str "c") .none).1,
   (update_device_settings_result (fun _ => .int 0) (.str "c") .none).2 (by simp)⟩

/-- C10: with `caption = None` and `type = None` the PUT is still performed,
with the empty dictionary as its body; in general the body contains the key
`caption` exactly when `caption` is not `None`, the key `type` exactly when
`type` is not `None`, and no other key. -/
theorem update_device_settings_body_keys (put : PyDict → PyVal)
    (caption type : PyVal) (k : String) :
    (caption = .none → type = .none →
      update_device_settings_body caption type = []
        ∧ update_device_settings put caption type = .ok ((put []).isNone))
    ∧ (PyDict.hasKey (update_device_settings_body caption type) "caption" = true
        ↔ caption ≠ .none)
    ∧ (PyDict.hasKey (update_device_settings_body caption type) "type" = true
        ↔ type ≠ .none)
    ∧ (k ∈ PyDict.keys (update_device_settings_body caption type) →
        k = "caption" ∨ k = "type") := by
  cases hc : caption.isNone <;> cases ht : type.isNone <;>
    simp_all [update_device_settings, update_device_settings_body, PyDict.hasKey,
      PyDict.find, PyDict.keys, PyVal.isNone_eq_true_iff, PyVal.isNone_eq_false_iff]

/-- C10 witness. -/
theorem update_device_settings_body_keys_witness :
    (update_device_settings_body .none .none = []
        ∧ update_device_settings (fun _ => .none) .none .none = .ok true)
    ∧ ("caption" ∈ PyDict.keys (update_device_settings_body .none .none) →
        "caption" = "caption" ∨ "caption" = "type") :=
  ⟨(update_device_settings_body_keys (fun _ => .none) .none .none "caption").1 rfl rfl,
   (update_device_settings_body_keys (fun _ => .none) .none .none "caption").2.2.2⟩

/-! ## Claims about `pull_subscriptions` -/

/-- Shared success lemma: a well-shaped response makes `pull_subscriptions`
return the two lists and the coerced timestamp. -/
theorem pull_subscriptions_ok (d : PyDict) (adds rems : List PyVal) (ts : PyVal) (n : Int)
    (hadd : PyDict.find d "add" = some (.list adds))
    (haddS : adds.all PyVal.isStr = true)
    (hrem : PyDict.find d "remove" = some (.list rems))
    (hremS : rems.all PyVal.isStr = true)
    (hts : PyDict.find d "timestamp" = some ts)
    (hn : pyInt ts = .ok n) :
    pull_subscriptions (.dict d) = .ok ⟨.list adds, .list rems, n⟩ := by
  simp [pull_subscriptions, PyVal.isNone, pyContains, PyDict.hasKey, pySubscript, pyIterate,
    hadd, haddS, hrem, hremS, hts, hn, Bind.bind, Except.bind, Pure.pure, Except.pure]

/-- Shared failure lemma: a dictionary response lacking `add`, `remove` or
`timestamp` makes `pull_subscriptions` raise `InvalidResponse`. -/
theorem pull_subscriptions_missing_key (d : PyDict)
    (h : PyDict.hasKey d "add" = false ∨ PyDict.hasKey d "remove" = false
        ∨ PyDict.hasKey d "timestamp" = false) :
    raisesInvalidResponse (pull_subscriptions (.dict d)) = true := by
  cases ha : PyDict.hasKey d "add" <;> cases hr : PyDict.hasKey d "remove" <;>
    cases htk : PyDict.hasKey d "timestamp" <;>
    simp_all [pull_subscriptions, PyVal.isNone, pyContains, raisesInvalidResponse,
      Bind.bind, Except.bind, Pure.pure, Except.pure]

/-- C3: for every non-null GET response containing `add`, `remove` and
`timestamp`, with `add`/`remove` lists of strings and a timestamp coercible to
an integer, `pull_subscriptions` returns exactly those lists (in order) and
the coerced timestamp as `since`. -/
theorem pull_subscriptions_success (d : PyDict) (adds rems : List PyVal) (ts : PyVal) (n : Int)
    (hadd : PyDict.find d "add" = some (.list adds))
    (haddS : adds.all PyVal.isStr = true)
    (hrem : PyDict.find d "remove" = some (.list rems))
    (hremS : rems.all PyVal.isStr = true)
    (hts : PyDict.find d "timestamp" = some ts)
    (hn : pyInt ts = .ok n) :
    pull_subscriptions (.dict d) = .ok ⟨.list adds, .list rems, n⟩ :=
  pull_subscriptions_ok d adds rems ts n hadd haddS hrem hremS hts hn

/-- C3 witness: the spec's concrete example
`{'add':['http://a'],'remove':[],'timestamp':'42'}`. -/
theorem pull_subscriptions_success_witness :
    pull_subscriptions
        (.dict [("add", .list [.str "http://a"]), ("remove", .list []),
                ("timestamp", .str "42")])
      = .ok ⟨.list [.str "http://a"], .list [], 42⟩ :=
  pull_subscriptions_success
    [("add", .list [.str "http://a"]), ("remove", .list []), ("timestamp", .str "42")]
    [.str "http://a"] [] (.str "42") 42 rfl rfl rfl rfl rfl rfl

/-- C4: `pull_subscriptions` raises `InvalidResponse` on a null response and
on a dictionary response lacking `add`, `remove` or `timestamp`, while an
empty (string-)list value for `add` or `remove` succeeds with the
corresponding empty change list. -/
theorem pull_subscriptions_absent_vs_empty :
    raisesInvalidResponse (pull_subscriptions .none) = true
    ∧ (∀ d : PyDict, (PyDict.hasKey d "add" = false ∨ PyDict.hasKey d "remove" = false
        ∨ PyDict.hasKey d "timestamp" = false) →
        raisesInvalidResponse (pull_subscriptions (.dict d)) = true)
    ∧ (∀ d : PyDict, ∀ rems : List PyVal, ∀ ts : PyVal, ∀ n : Int,
        PyDict.find d "add" = some (.list []) →
        PyDict.find d "remove" = some (.list rems) → rems.all PyVal.isStr = true →
        PyDict.find d "timestamp" = some ts → pyInt ts = .ok n →
        pull_subscriptions (.dict d) = .ok ⟨.list [], .list rems, n⟩)
    ∧ (∀ d : PyDict, ∀ adds : List PyVal, ∀ ts : PyVal, ∀ n : Int,
        PyDict.find d "add" = some (.list adds) → adds.all PyVal.isStr = true →
        PyDict.find d "remove" = some (.list []) →
        PyDict.find d "timestamp" = some ts → pyInt ts = .ok n →
        pull_subscriptions (.dict d) = .ok ⟨.list adds, .list [], n⟩) := by
  refine ⟨rfl, pull_subscriptions_missing_key, ?_, ?_⟩
  · intro d rems ts n hadd hrem hremS hts hn
    exact pull_subscriptions_ok d [] rems ts n hadd rfl hrem hremS hts hn
  · intro d adds ts n hadd haddS hrem hts hn
    exact pull_subscriptions_ok d adds [] ts n hadd haddS hrem rfl hts hn

/-- C4 witness: a response missing `timestamp` raises `InvalidResponse`; a
response with empty `add`/`remove` lists succeeds with empty change lists. -/
theorem pull_subscriptions_absent_vs_empty_witness :
    raisesInvalidResponse
        (pull_subscriptions (.dict [("add", .list []), ("remove", .list [])])) = true
    ∧ pull_subscriptions
        (.dict [("add", .list []), ("remove", .list []), ("timestamp", .int 7)])
      = .ok ⟨.list [], .list [], 7⟩ :=
  ⟨pull_subscriptions_absent_vs_empty.2.1 [("add", .list []), ("remove", .list [])]
      (Or.inr (Or.inr rfl)),
   pull_subscriptions_absent_vs_empty.2.2.1
      [("add", .list []), ("remove", .list []), ("timestamp", .int 7)]
      [] (.int 7) 7 rfl rfl rfl rfl rfl⟩

/-! ## Claims about `download_episode_actions` -/

/-- C2 counterexample: a response whose single action dictionary has a
wrong-typed `action` value (the integer `5`) is structurally malformed in the
claim's sense, yet `download_episode_actions` raises the constructor's
`ValueError` — which only `except KeyError` guards — and not
`InvalidResponse`. -/
theorem download_episode_actions_wrong_type_not_invalidResponse :
    download_episode_actions (fun _ => true) (fun _ => true)
        (.dict [("actions", .list [.dict [("podcast", .str "p"), ("episode", .str "e"),
                                          ("action", .int 5)]]),
                ("timestamp", .int 5)])
      = .error (.valueError "Invalid action type (see VALID_TYPES)")
    ∧ raisesInvalidResponse (download_episode_actions (fun _ => true) (fun _ => true)
        (.dict [("actions", .list [.dict [("podcast", .str "p"), ("episode", .str "e"),
                                          ("action", .int 5)]]),
                ("timestamp", .int 5)])) = false :=
  ⟨rfl, rfl⟩

/-- C2 (amended): `download_episode_actions` raises `InvalidResponse` when
the response is null, lacks `actions` or `timestamp`, has a string timestamp
that does not parse as an integer, or when building the action list raises a
`KeyError` (an action dictionary missing a mandatory key); but a timestamp
value on which `int(...)` raises `TypeError` propagates that `TypeError`, and
an action dictionary that makes the `EpisodeAction` constructor raise
`ValueError` (e.g. a wrong-typed `action` value) propagates that `ValueError`;
in every failure case no action list and no cursor is returned (the result is
the error alone), and a fully well-formed response yields all actions and the
coerced timestamp. -/
theorem download_episode_actions_classified (iso8601Ok posOk : PyVal → Bool) :
    raisesInvalidResponse (download_episode_actions iso8601Ok posOk .none) = true
    ∧ (∀ d : PyDict, (PyDict.hasKey d "actions" = false
          ∨ PyDict.hasKey d "timestamp" = false) →
        raisesInvalidResponse (download_episode_actions iso8601Ok posOk (.dict d)) = true)
    ∧ (∀ d : PyDict, ∀ s : String, PyDict.hasKey d "actions" = true →
        PyDict.find d "timestamp" = some (.str s) → parsePyIntString s = Option.none →
        download_episode_actions iso8601Ok posOk (.dict d)
          = .error (.invalidResponse ("Invalid value for timestamp: " ++ s)))
    ∧ (∀ d : PyDict, ∀ ts : PyVal, ∀ m : String, PyDict.hasKey d "actions" = true →
        PyDict.find d "timestamp" = some ts → pyInt ts = .error (.typeError m) →
        download_episode_actions iso8601Ok posOk (.dict d) = .error (.typeError m))
    ∧ (∀ d : PyDict, ∀ L : List PyVal, ∀ ts : PyVal, ∀ n : Int, ∀ k : String,
        PyDict.find d "actions" = some (.list L) →
        PyDict.find d "timestamp" = some ts → pyInt ts = .ok n →
        actionsFromDicts iso8601Ok posOk L = .error (.keyError k) →
        download_episode_actions iso8601Ok posOk (.dict d)
          = .error (.invalidResponse "Missing keys in action list response"))
    ∧ (∀ d : PyDict, ∀ L : List PyVal, ∀ ts : PyVal, ∀ n : Int, ∀ m : String,
        PyDict.find d "actions" = some (.list L) →
        PyDict.find d "timestamp" = some ts → pyInt ts = .ok n →
        actionsFromDicts iso8601Ok posOk L = .error (.valueError m) →
        download_episode_actions iso8601Ok posOk (.dict d) = .error (.valueError m))
    ∧ (∀ d : PyDict, ∀ L : List PyVal, ∀ ts : PyVal, ∀ n : Int,
        ∀ xs : List EpisodeAction,
        PyDict.find d "actions" = some (.list L) →
        PyDict.find d "timestamp" = some ts → pyInt ts = .ok n →
        actionsFromDicts iso8601Ok posOk L = .ok xs →
        download_episode_actions iso8601Ok posOk (.dict d) = .ok ⟨xs, n⟩) := by
  refine ⟨rfl, ?_, ?_, ?_, ?_, ?_, ?_⟩
  · intro d h
    cases ha : PyDict.hasKey d "actions" <;> cases ht : PyDict.hasKey d "timestamp" <;>
      simp_all [download_episode_actions, PyVal.isNone, pyContains, raisesInvalidResponse,
        Bind.bind, Except.bind, Pure.pure, Except.pure]
  · intro d s ha hts hparse
    rcases ho : PyDict.find d "actions" with _ | av
    · rw [PyDict.hasKey, ho] at ha
      simp at ha
    · simp [download_episode_actions, PyVal.isNone, pyContains, PyDict.hasKey, ho, hts,
        pySubscript, pyInt, hparse, Bind.bind, Except.bind, Pure.pure, Except.pure]
  · intro d ts m ha hts hn
    rcases ho : PyDict.find d "actions" with _ | av
    · rw [PyDict.hasKey, ho] at ha
      simp at ha
    · simp [download_episode_actions, PyVal.isNone, pyContains, PyDict.hasKey, ho, hts,
        pySubscript, hn, Bind.bind, Except.bind, Pure.pure, Except.pure]
  · intro d L ts n k hact hts hn hk
    simp [download_episode_actions, PyVal.isNone, pyContains, PyDict.hasKey, hact, hts,
      pySubscript, pyIterate, hn, hk, Bind.bind, Except.bind, Pure.pure, Except.pure]
  · intro d L ts n m hact hts hn hm
    simp [download_episode_actions, PyVal.isNone, pyContains, PyDict.hasKey, hact, hts,
      pySubscript, pyIterate, hn, hm, Bind.bind, Except.bind, Pure.pure, Except.pure]
  · intro d L ts n xs hact hts hn hxs
    simp [download_episode_actions, PyVal.isNone, pyContains, PyDict.hasKey, hact, hts,
      pySubscript, pyIterate, hn, hxs, Bind.bind, Except.bind, Pure.pure, Except.pure]

/-- C2 witness: an action dictionary missing its mandatory `podcast` key gives
`InvalidResponse`; the well-formed one-action response succeeds. -/
theorem download_episode_actions_classified_witness :
    download_episode_actions (fun _ => true) (fun _ => true)
        (.dict [("actions", .list [.dict [("episode", .str "e"), ("action", .str "new")]]),
                ("timestamp", .int 5)])
      = .error (.invalidResponse "Missing keys in action list response")
    ∧ download_episode_actions (fun _ => true) (fun _ => true)
        (.dict [("actions", .list [.dict [("podcast", .str "p"), ("episode", .str "e"),
                                          ("action", .str "new")]]),
                ("timestamp", .int 5)])
      = .ok ⟨[⟨.str "p", .str "e", .str "new", .none, .none, .none⟩], 5⟩ :=
  ⟨(download_episode_actions_classified (fun _ => true) (fun _ => true)).2.2.2.2.1
      [("actions", .list [.dict [("episode", .str "e"), ("action", .str "new")]]),
       ("timestamp", .int 5)]
      [.dict [("episode", .str "e"), ("action", .str "new")]] (.int 5) 5 "podcast"
      rfl rfl rfl rfl,
   (download_episode_actions_classified (fun _ => true) (fun _ => true)).2.2.2.2.2.2
      [("actions", .list [.dict [("podcast", .str "p"), ("episode", .str "e"),
                                 ("action", .str "new")]]),
       ("timestamp", .int 5)]
      [.dict [("podcast", .str "p"), ("episode", .str "e"), ("action", .str "new")]]
      (.int 5) 5 [⟨.str "p", .str "e", .str "new", .none, .none, .none⟩]
      rfl rfl rfl rfl⟩
